import Mathlib

/-!
Verification of the `/api/product-scraper` request handler of
`src/server.ts` (the aggregation pipeline of the product-details-scraper
repository).  External collaborators (`scrapeUrl`, `cleanContent`,
`getProductName`, `searchGoogle`, `scrapeSearchResults`,
`selectBestImageWithVision`, `summarizeContent`, `generateObject`) are
modelled abstractly as fields of an environment record: the handler only
depends on their input/output contracts.  Thrown JavaScript values and
rejected promises are modelled with `Except`, JavaScript values that may
or may not be strings with `JsValue`, and the handler additionally
returns the ordered list of collaborator calls it made.
-/

namespace ProductScraper

/-- A thrown JavaScript value: either an `Error` object carrying a
message, or some non-`Error` value (for which the catch block reports
"Unknown error"). -/
inductive JsError where
  | errObj (message : String)
  | nonError
  deriving DecidableEq, Repr

/-- The `details` field computed by the catch block of `server.ts`:
`error instanceof Error ? error.message : "Unknown error"`. -/
def errorDetails : JsError → String
  | .errObj m => m
  | .nonError => "Unknown error"

/-- A JavaScript value as seen by the summary filter: either a string or
some non-string value (null, undefined, object, ...). -/
inductive JsValue where
  | str (s : String)
  | nonStr
  deriving DecidableEq, Repr

/-- Result of `scrapeUrl`: an object with a `content` field (the handler
checks `!initialContent?.content`, so the object itself may be absent and
the content may be empty). -/
structure ScrapedPage where
  url : String
  content : String
  deriving DecidableEq, Repr

/-- One search result entry returned by `searchGoogle`. -/
structure SearchResult where
  url : String
  title : String
  deriving DecidableEq, Repr

/-- The object returned by `searchGoogle`; the handler reads its
`searchResults` field. -/
structure SearchResponse where
  searchResults : List SearchResult
  deriving DecidableEq, Repr

/-- One successfully scraped source document inside the batch returned by
`scrapeSearchResults`; the handler reads its `content` field. -/
structure SourceDoc where
  url : String
  content : String
  deriving DecidableEq, Repr

/-- The `{ contents, images }` batch returned by `scrapeSearchResults`. -/
structure ScrapedBatch where
  contents : List SourceDoc
  images : List String
  deriving DecidableEq, Repr

/-- A `whereToBuy` entry of the product record. -/
structure WhereToBuyEntry where
  retailer : String
  country : String
  price : String
  url : String
  deriving DecidableEq, Repr

/-- A label/value pair of the `specifications` array. -/
structure Specification where
  label : String
  value : String
  deriving DecidableEq, Repr

/-- A FAQ entry of the product record. -/
structure FaqEntry where
  question : String
  answer : String
  deriving DecidableEq, Repr

/-- Modelled from the spec: `ProductSchema` is defined in
`src/lib/functions`, which is absent from the sources; per the spec the
record carries name, description, ratings/reviews, whereToBuy entries,
specifications as an ordered list of label/value pairs (always an array,
possibly empty), FAQ entries, and an image reference populated
out-of-band after synthesis. -/
structure ProductObject where
  name : String
  description : String
  ratings : String
  whereToBuy : List WhereToBuyEntry
  specifications : List Specification
  faq : List FaqEntry
  image : Option String
  deriving DecidableEq, Repr

/-- The collaborator responses available to one handler invocation.  Each
field is the input/output contract of one external function imported by
`server.ts`; a `.error` value models a rejected promise / thrown error. -/
structure Env where
  scrapeUrl : String → Except JsError (Option ScrapedPage)
  cleanContent : String → Except JsError String
  getProductName : String → Except JsError String
  searchGoogle : String → Except JsError SearchResponse
  scrapeSearchResults : List SearchResult → String → Except JsError ScrapedBatch
  selectBestImageWithVision : List String → String → Except JsError (Option String)
  summarizeContent : String → Except JsError JsValue
  generateObject : String → Except JsError ProductObject

/-- One collaborator invocation, recorded with its arguments in the order
the handler issues the calls. -/
inductive CallEvent where
  | scrapeUrlCall (url : String)
  | cleanContentCall (content : String)
  | getProductNameCall (content : String)
  | searchGoogleCall (query : String)
  | scrapeSearchResultsCall (results : List SearchResult) (productName : String)
  | selectBestImageCall (images : List String) (productName : String)
  | summarizeContentCall (content : String)
  | generateObjectCall (prompt : String)
  deriving DecidableEq, Repr

/-- Recognizes the synthesis call event. -/
def isGenerateObjectCall : CallEvent → Bool
  | .generateObjectCall _ => true
  | _ => false

/-- The three response shapes the route can produce: the 400 validation
response, the 200 JSON product record, and the 500 failure response with
its `error` and `details` fields. -/
inductive HandlerResult where
  | badRequest (error : String)
  | ok (record : ProductObject)
  | serverError (error : String) (details : String)
  deriving DecidableEq, Repr

/-- The fixed `error` field of every 500 response of the route. -/
def genericErrorMessage : String := "Failed to scrape product information"

/-- JavaScript truthiness of the `url` field: `if (!url)` rejects a
missing field and an empty string alike. -/
def urlFalsy : Option String → Bool
  | none => true
  | some s => s.isEmpty

/-- The request body `{ url }` of the POST route. -/
structure RequestBody where
  url : Option String
  deriving DecidableEq, Repr

/-- `Promise.all` over already-settled outcomes: rejects with the first
rejection when one exists, otherwise resolves with all values in input
order. -/
def promiseAll {α : Type} : List (Except JsError α) → Except JsError (List α)
  | [] => .ok []
  | .error e :: _ => .error e
  | .ok a :: xs =>
    match promiseAll xs with
    | .error e => .error e
    | .ok ys => .ok (a :: ys)

/-- The summary filter of `server.ts`:
`typeof summary === "string" && summary.length > 0`. -/
def isNonEmptyString : JsValue → Bool
  | .str s => s.length > 0
  | .nonStr => false

/-- JavaScript string conversion restricted to what the join sees: after
the filter every element is a string. -/
def jsValueToString : JsValue → String
  | .str s => s
  | .nonStr => ""

/-- The non-empty string summaries kept by the filter, in input order. -/
def filteredSummaries (vs : List JsValue) : List String :=
  vs.filterMap fun v =>
    match v with
    | .str s => if s.length > 0 then some s else none
    | .nonStr => none

/-- `summarizedContents.filter(...).join("\n\n")` of `server.ts`: keep the
non-empty strings and join them with a blank-line separator (after the
filter every element is a string, so the join's string conversion is the
identity). -/
def combinedDetails (vs : List JsValue) : String :=
  String.intercalate "\n\n" ((vs.filter isNonEmptyString).map jsValueToString)

/-- The fixed prompt template passed to `generateObject`, parameterized by
the product name and the joined summaries. -/
def promptTemplate (productName joined : String) : String :=
  "Generate comprehensive product information for " ++ productName ++
  ".\nUse this summarized content and specifications from multiple sources:\n\nContent:\n" ++
  joined ++
  "\n\nGenerate a detailed response including:\n" ++
  "1. Product name and description.(Description should be a detailed description of the product)\n" ++
  "2. Ratings and reviews. (Should be related to the product)\n" ++
  "3. Where to buy information. (Include the retailer, country, price and url)\n" ++
  "4. Technical specifications as an array of label-value pairs\n" ++
  "5. Frequently asked questions. (Should be technical questions or related to the product specifications)\n\n" ++
  "Important: Format specifications as an array of objects with label and value properties.\n" ++
  "Ensure all specifications are included and all information is factual."

/-- Stages 1-5 of the pipeline (lines 82-95 of `server.ts`): scrape the
initial URL, reject unusable content, clean, identify the product name,
search, truncate to the first 7 results and fan out the scrape.  Returns
the product name and the scraped batch, or the first fatal error, plus
the list of collaborator calls made. -/
def preStage (env : Env) (url : String) :
    Except JsError (String × ScrapedBatch) × List CallEvent :=
  match env.scrapeUrl url with
  | .error e => (.error e, [.scrapeUrlCall url])
  | .ok none => (.error (.errObj "Failed to scrape initial URL"), [.scrapeUrlCall url])
  | .ok (some page) =>
    if page.content.isEmpty then
      (.error (.errObj "Failed to scrape initial URL"), [.scrapeUrlCall url])
    else
      match env.cleanContent page.content with
      | .error e => (.error e, [.scrapeUrlCall url, .cleanContentCall page.content])
      | .ok cleaned =>
        match env.getProductName cleaned with
        | .error e =>
          (.error e,
            [.scrapeUrlCall url, .cleanContentCall page.content, .getProductNameCall cleaned])
        | .ok productName =>
          match env.searchGoogle productName with
          | .error e =>
            (.error e,
              [.scrapeUrlCall url, .cleanContentCall page.content,
                .getProductNameCall cleaned, .searchGoogleCall productName])
          | .ok resp =>
            let limitedResults := resp.searchResults.take 7
            match env.scrapeSearchResults limitedResults productName with
            | .error e =>
              (.error e,
                [.scrapeUrlCall url, .cleanContentCall page.content,
                  .getProductNameCall cleaned, .searchGoogleCall productName,
                  .scrapeSearchResultsCall limitedResults productName])
            | .ok batch =>
              (.ok (productName, batch),
                [.scrapeUrlCall url, .cleanContentCall page.content,
                  .getProductNameCall cleaned, .searchGoogleCall productName,
                  .scrapeSearchResultsCall limitedResults productName])

/-- Stages 9-10 after summarization settled with values `vs`: build the
prompt from the joined filtered summaries, synthesize, and attach the
selected image (`object.image = bestImage`). -/
def postSummarize (env : Env) (productName : String) (bestImage : Option String)
    (vs : List JsValue) : HandlerResult :=
  match env.generateObject (promptTemplate productName (combinedDetails vs)) with
  | .error e => .serverError genericErrorMessage (errorDetails e)
  | .ok obj => .ok { obj with image := bestImage }

/-- The POST `/api/product-scraper` handler of `server.ts` (lines 70-142):
validate the url, run stages 1-5, select the best image, summarize every
scraped content concurrently via `Promise.all`, filter and join the
summaries, synthesize the product object and attach the image; any error
reaching the catch block becomes the single 500 failure response. -/
def handler (env : Env) (body : RequestBody) : HandlerResult × List CallEvent :=
  if urlFalsy body.url then
    (.badRequest "URL is required", [])
  else
    let u := body.url.getD ""
    match preStage env u with
    | (.error e, t) => (.serverError genericErrorMessage (errorDetails e), t)
    | (.ok (productName, batch), t) =>
      let t1 := t ++ [.selectBestImageCall batch.images productName]
      match env.selectBestImageWithVision batch.images productName with
      | .error e => (.serverError genericErrorMessage (errorDetails e), t1)
      | .ok bestImage =>
        let t2 := t1 ++ batch.contents.map fun c => .summarizeContentCall c.content
        match promiseAll (batch.contents.map fun c => env.summarizeContent c.content) with
        | .error e => (.serverError genericErrorMessage (errorDetails e), t2)
        | .ok vs =>
          let prompt := promptTemplate productName (combinedDetails vs)
          let t3 := t2 ++ [.generateObjectCall prompt]
          match env.generateObject prompt with
          | .error e => (.serverError genericErrorMessage (errorDetails e), t3)
          | .ok obj => (.ok { obj with image := bestImage }, t3)

/-- Outcome of the per-result scraping primitive: text content plus the
images discovered on that page. -/
structure ScrapeOutcome where
  content : String
  images : List String
  deriving DecidableEq, Repr

/-- Modelled from the spec: the body of `scrapeSearchResults` lives in
`src/lib/functions`, which is absent from the sources.  Per the spec
(stage 5) it fans the per-result scraper over the retained results,
tolerating per-item failures: a failed scrape contributes nothing to
`contents` or `images`, and both collections preserve the per-result
order. -/
def scrapeSearchResultsSpec (scrape : SearchResult → Option ScrapeOutcome)
    (results : List SearchResult) : ScrapedBatch :=
  { contents :=
      results.filterMap fun r =>
        (scrape r).map fun o => { url := r.url, content := o.content }
    images :=
      (results.map fun r => ((scrape r).map ScrapeOutcome.images).getD []).flatten }

/-- All textual fields of two product records agree (everything except
`image`). -/
def sameTextualFields (a b : ProductObject) : Prop :=
  a.name = b.name ∧ a.description = b.description ∧ a.ratings = b.ratings ∧
  a.whereToBuy = b.whereToBuy ∧ a.specifications = b.specifications ∧ a.faq = b.faq

/-- The `!initialContent?.content` usability check of line 83: the result
object must exist and carry a non-empty `content` string. -/
def hasUsableContent : Option ScrapedPage → Bool
  | none => false
  | some p => !p.content.isEmpty

/-- A concrete synthesized product object used in witnesses. -/
def objA : ProductObject :=
  { name := "Widget X", description := "A widget.", ratings := "4.5 stars",
    whereToBuy := [{ retailer := "Shop", country := "US", price := "9.99",
                     url := "https://shop.example" }],
    specifications := [{ label := "Weight", value := "1kg" }],
    faq := [{ question := "Q", answer := "A" }], image := none }

/-- A concrete synthesized product object with an empty specifications
array, used in witnesses. -/
def objEmptySpecs : ProductObject :=
  { name := "Widget X", description := "d", ratings := "r", whereToBuy := [],
    specifications := [], faq := [], image := none }

/-- A concrete request body with a non-empty url, used in witnesses. -/
def bodyA : RequestBody := { url := some "https://example.com/prod1" }

/-- A concrete environment in which every collaborator succeeds. -/
def envA : Env :=
  { scrapeUrl := fun _ =>
      .ok (some { url := "https://example.com/prod1", content := "Widget X details" })
    cleanContent := fun c => .ok c
    getProductName := fun _ => .ok "Widget X"
    searchGoogle := fun _ =>
      .ok { searchResults := [{ url := "https://a.example", title := "A" },
                              { url := "https://b.example", title := "B" }] }
    scrapeSearchResults := fun _ _ =>
      .ok { contents := [{ url := "https://a.example", content := "alpha facts" }],
            images := ["img1"] }
    selectBestImageWithVision := fun _ _ => .ok (some "img1")
    summarizeContent := fun _ => .ok (.str "summary one")
    generateObject := fun _ => .ok objA }

/-- Like `envA` but the single summarization call rejects. -/
def envC1 : Env :=
  { envA with summarizeContent := fun _ => .error (.errObj "summarizer boom") }

/-- Like `envA` but the initial scrape rejects. -/
def envFailScrape : Env :=
  { envA with scrapeUrl := fun _ => .error (.errObj "boom") }

/-- Like `envA` but the scrape fan-out follows the spec-modelled
collaborator with a per-result scraper that always fails. -/
def envC6 : Env :=
  { envA with
    scrapeSearchResults := fun rs _ => .ok (scrapeSearchResultsSpec (fun _ => none) rs) }

/-- Like `envA` but synthesis returns an object with an empty
specifications array. -/
def envC9 : Env :=
  { envA with generateObject := fun _ => .ok objEmptySpecs }

/-! Helper lemmas -/

theorem filteredSummaries_eq_filter_map (vs : List JsValue) :
    filteredSummaries vs = (vs.filter isNonEmptyString).map jsValueToString := by
  induction vs with
  | nil => rfl
  | cons v vs ih =>
    cases v with
    | str s =>
      by_cases h : s.length > 0 <;>
        simp [filteredSummaries, isNonEmptyString, jsValueToString, h, List.filter_cons,
          List.filterMap_cons] at * <;>
        exact ih
    | nonStr =>
      simp [filteredSummaries, isNonEmptyString, List.filter_cons, List.filterMap_cons] at *
      exact ih

theorem combinedDetails_eq_filteredSummaries (vs : List JsValue) :
    combinedDetails vs = String.intercalate "\n\n" (filteredSummaries vs) := by
  rw [combinedDetails, filteredSummaries_eq_filter_map]

theorem combinedDetails_filter_idem (vs : List JsValue) :
    combinedDetails (vs.filter isNonEmptyString) = combinedDetails vs := by
  unfold combinedDetails
  rw [List.filter_filter]
  simp

theorem promiseAll_map_ok {β : Type} (l : List β) (f : β → Except JsError JsValue)
    (g : β → JsValue) (h : ∀ x ∈ l, f x = .ok (g x)) :
    promiseAll (l.map f) = .ok (l.map g) := by
  induction l with
  | nil => rfl
  | cons a l ih =>
    have ha := h a (List.mem_cons_self a l)
    have ih' := ih fun x hx => h x (List.mem_cons_of_mem a hx)
    simp [promiseAll, ha, ih']

/-! Claim theorems -/

/-- C3: a request whose `url` field is missing or empty is rejected with
the 400 validation response before any collaborator is invoked — the call
trace is empty. -/
theorem missing_url_rejected_no_calls (env : Env) (body : RequestBody)
    (h : urlFalsy body.url = true) :
    handler env body = (.badRequest "URL is required", []) := by
  simp [handler, h]

/-- Witness for C3 at a concrete environment and the missing-url body. -/
theorem missing_url_rejected_no_calls_witness :
    handler envA { url := none } = (.badRequest "URL is required", []) :=
  missing_url_rejected_no_calls envA { url := none } rfl

/-- C8: the assembly is deterministic — two handler invocations with
identical collaborator responses produce identical results. -/
theorem deterministic_assembly (env1 env2 : Env) (body : RequestBody)
    (h : env1 = env2) :
    handler env1 body = handler env2 body := by
  rw [h]

/-- Witness for C8 at a concrete environment. -/
theorem deterministic_assembly_witness :
    handler envA bodyA = handler envA bodyA :=
  deterministic_assembly envA envA bodyA rfl

/-- C2: a fatal failure — extraction rejecting, extraction returning no
usable content, identification rejecting, or synthesis rejecting — aborts
the whole request and the caller receives exactly the single 500
response with the fixed generic summary plus the underlying error's
message; no product record is returned. -/
theorem fatal_errors_single_response (env : Env) (u : String)
    (hu : u.isEmpty = false) :
    (∀ e, env.scrapeUrl u = .error e →
      handler env { url := some u }
        = (.serverError genericErrorMessage (errorDetails e), [.scrapeUrlCall u]))
    ∧ (∀ pg, env.scrapeUrl u = .ok pg → hasUsableContent pg = false →
      handler env { url := some u }
        = (.serverError genericErrorMessage "Failed to scrape initial URL", [.scrapeUrlCall u]))
    ∧ (∀ page cleaned e, env.scrapeUrl u = .ok (some page) →
      page.content.isEmpty = false → env.cleanContent page.content = .ok cleaned →
      env.getProductName cleaned = .error e →
      (handler env { url := some u }).1 = .serverError genericErrorMessage (errorDetails e))
    ∧ (∀ page cleaned productName resp batch img vs e,
      env.scrapeUrl u = .ok (some page) → page.content.isEmpty = false →
      env.cleanContent page.content = .ok cleaned →
      env.getProductName cleaned = .ok productName →
      env.searchGoogle productName = .ok resp →
      env.scrapeSearchResults (resp.searchResults.take 7) productName = .ok batch →
      env.selectBestImageWithVision batch.images productName = .ok img →
      promiseAll (batch.contents.map fun c => env.summarizeContent c.content) = .ok vs →
      env.generateObject (promptTemplate productName (combinedDetails vs)) = .error e →
      (handler env { url := some u }).1
        = .serverError genericErrorMessage (errorDetails e)) := by
  refine ⟨?_, ?_, ?_, ?_⟩
  · intro e h1
    simp [handler, urlFalsy, hu, preStage, h1]
  · intro pg h1 h2
    cases pg with
    | none => simp [handler, urlFalsy, hu, preStage, h1, errorDetails]
    | some page =>
      simp [hasUsableContent, Bool.not_eq_true'] at h2
      simp [handler, urlFalsy, hu, preStage, h1, h2, errorDetails]
  · intro page cleaned e h1 h2 h3 h4
    simp [handler, urlFalsy, hu, preStage, h1, h2, h3, h4]
  · intro page cleaned productName resp batch img vs e h1 h2 h3 h4 h5 h6 h7 h8 h9
    simp [handler, urlFalsy, hu, preStage, h1, h2, h3, h4, h5, h6, h7, h8, h9]

/-- Witness for C2: in a concrete environment whose initial scrape
rejects with message "boom", the caller receives the single 500 response
with the generic summary and that message. -/
theorem fatal_errors_single_response_witness :
    handler envFailScrape { url := some "https://example.com/prod1" }
      = (.serverError genericErrorMessage (errorDetails (.errObj "boom")),
          [.scrapeUrlCall "https://example.com/prod1"]) :=
  (fatal_errors_single_response envFailScrape "https://example.com/prod1" rfl).1
    (.errObj "boom") rfl

/-- C1 counterexample: in a concrete environment that reaches the
summarization stage with one scraped content entry whose Summarizer call
fails (rejects with "summarizer boom"), the failure is not absorbed: the
caller receives the 500 failure response carrying that message, and
synthesis is never invoked (no `generateObject` call in the trace) — so
the request does not proceed to synthesis, contradicting the claim. -/
theorem summarizer_rejection_escalates_cex :
    (handler envC1 { url := some "https://example.com/prod1" }).1
        = .serverError "Failed to scrape product information" "summarizer boom"
    ∧ ((handler envC1 { url := some "https://example.com/prod1" }).2.filter
        isGenerateObjectCall) = [] := by
  constructor <;> rfl

/-- C1 (amended): for every request that reaches the summarization stage,
if every individual Summarizer call settles with a value, then values
that are empty or non-string contribute nothing to the joined summaries
and the request still proceeds to synthesis and can succeed; but if some
Summarizer call rejects, `Promise.all` rejects and the whole request
aborts with the single generic 500 failure response. -/
theorem summarizer_value_failures_absorbed (env : Env) (u : String)
    (page : ScrapedPage) (cleaned productName : String) (resp : SearchResponse)
    (batch : ScrapedBatch) (img : Option String)
    (hu : u.isEmpty = false)
    (h1 : env.scrapeUrl u = .ok (some page))
    (h2 : page.content.isEmpty = false)
    (h3 : env.cleanContent page.content = .ok cleaned)
    (h4 : env.getProductName cleaned = .ok productName)
    (h5 : env.searchGoogle productName = .ok resp)
    (h6 : env.scrapeSearchResults (resp.searchResults.take 7) productName = .ok batch)
    (h7 : env.selectBestImageWithVision batch.images productName = .ok img) :
    (∀ vs, promiseAll (batch.contents.map fun c => env.summarizeContent c.content) = .ok vs →
      (handler env { url := some u }).1 = postSummarize env productName img vs
      ∧ combinedDetails vs = combinedDetails (vs.filter isNonEmptyString)
      ∧ ∀ obj, env.generateObject (promptTemplate productName (combinedDetails vs)) = .ok obj →
          (handler env { url := some u }).1 = .ok { obj with image := img })
    ∧ (∀ e, promiseAll (batch.contents.map fun c => env.summarizeContent c.content) = .error e →
      (handler env { url := some u }).1
        = .serverError genericErrorMessage (errorDetails e)) := by
  constructor
  · intro vs h8
    refine ⟨?_, (combinedDetails_filter_idem vs).symm, ?_⟩
    · simp only [handler, urlFalsy, hu, preStage, h1, h2, h3, h4, h5, h6, h7, h8,
        postSummarize, Bool.false_eq_true, if_false, Option.getD_some]
      split <;> rfl
    · intro obj h9
      simp [handler, urlFalsy, hu, preStage, h1, h2, h3, h4, h5, h6, h7, h8, h9]
  · intro e h8
    simp [handler, urlFalsy, hu, preStage, h1, h2, h3, h4, h5, h6, h7, h8]

/-- Witness for the amended C1 at a concrete all-success environment:
the single summary settles with a value and the request succeeds with the
synthesized record plus the selected image. -/
theorem summarizer_value_failures_absorbed_witness :
    (handler envA { url := some "https://example.com/prod1" }).1
      = .ok { objA with image := some "img1" } :=
  ((summarizer_value_failures_absorbed envA "https://example.com/prod1"
      { url := "https://example.com/prod1", content := "Widget X details" }
      "Widget X details" "Widget X"
      { searchResults := [{ url := "https://a.example", title := "A" },
                          { url := "https://b.example", title := "B" }] }
      { contents := [{ url := "https://a.example", content := "alpha facts" }],
        images := ["img1"] }
      (some "img1") rfl rfl rfl rfl rfl rfl rfl rfl).1
    [.str "summary one"] rfl).2.2 objA rfl

/-- Every call event recorded by stages 1-5 is in the handler's trace:
the handler's trace extends the `preStage` trace. -/
theorem handler_trace_extends (env : Env) (u : String) (hu : u.isEmpty = false) :
    ∃ rest, (handler env { url := some u }).2 = (preStage env u).2 ++ rest := by
  unfold handler
  simp only [urlFalsy, hu, Bool.false_eq_true, if_false, Option.getD_some]
  rcases hp : preStage env u with ⟨res, t⟩
  cases res with
  | error e => exact ⟨[], by simp⟩
  | ok pb =>
    rcases pb with ⟨pn, batch⟩
    cases hs : env.selectBestImageWithVision batch.images pn with
    | error e => exact ⟨[.selectBestImageCall batch.images pn], by simp [hs]⟩
    | ok img =>
      cases hsum : promiseAll (batch.contents.map fun c => env.summarizeContent c.content) with
      | error e =>
        exact ⟨CallEvent.selectBestImageCall batch.images pn ::
          batch.contents.map (fun c => CallEvent.summarizeContentCall c.content),
          by simp [hs, hsum]⟩
      | ok vs =>
        cases hg : env.generateObject (promptTemplate pn (combinedDetails vs)) with
        | error e =>
          exact ⟨CallEvent.selectBestImageCall batch.images pn ::
            (batch.contents.map (fun c => CallEvent.summarizeContentCall c.content) ++
              [CallEvent.generateObjectCall (promptTemplate pn (combinedDetails vs))]),
            by simp [hs, hsum, hg]⟩
        | ok obj =>
          exact ⟨CallEvent.selectBestImageCall batch.images pn ::
            (batch.contents.map (fun c => CallEvent.summarizeContentCall c.content) ++
              [CallEvent.generateObjectCall (promptTemplate pn (combinedDetails vs))]),
            by simp [hs, hsum, hg]⟩

/-- Once stages 1-4 succeed, the scrape fan-out call on the first 7 search
results is in the `preStage` trace, whatever its outcome. -/
theorem preStage_scrape_call (env : Env) (u : String) (page : ScrapedPage)
    (cleaned productName : String) (resp : SearchResponse)
    (h1 : env.scrapeUrl u = .ok (some page))
    (h2 : page.content.isEmpty = false)
    (h3 : env.cleanContent page.content = .ok cleaned)
    (h4 : env.getProductName cleaned = .ok productName)
    (h5 : env.searchGoogle productName = .ok resp) :
    CallEvent.scrapeSearchResultsCall (resp.searchResults.take 7) productName
      ∈ (preStage env u).2 := by
  simp only [preStage, h1, h2, h3, h4, h5, Bool.false_eq_true, if_false]
  split <;> simp

/-- C4: the pipeline passes exactly the first 7 search results, in order,
to the scrape fan-out — all of them when fewer than 7 are returned, with
no error for short result sets — so the retained count is
`min 7 searchResultCount`. -/
theorem search_truncation_first_seven (env : Env) (u : String) (page : ScrapedPage)
    (cleaned productName : String) (resp : SearchResponse)
    (hu : u.isEmpty = false)
    (h1 : env.scrapeUrl u = .ok (some page))
    (h2 : page.content.isEmpty = false)
    (h3 : env.cleanContent page.content = .ok cleaned)
    (h4 : env.getProductName cleaned = .ok productName)
    (h5 : env.searchGoogle productName = .ok resp) :
    CallEvent.scrapeSearchResultsCall (resp.searchResults.take 7) productName
        ∈ (handler env { url := some u }).2
    ∧ (resp.searchResults.take 7).length = min 7 resp.searchResults.length
    ∧ resp.searchResults.take 7 ++ resp.searchResults.drop 7 = resp.searchResults
    ∧ (resp.searchResults.length ≤ 7 → resp.searchResults.take 7 = resp.searchResults) := by
  obtain ⟨rest, hrest⟩ := handler_trace_extends env u hu
  refine ⟨?_, ?_, List.take_append_drop 7 resp.searchResults, fun hle => ?_⟩
  · rw [hrest]
    exact List.mem_append_left rest
      (preStage_scrape_call env u page cleaned productName resp h1 h2 h3 h4 h5)
  · simp [List.length_take]
  · exact List.take_of_length_le hle

/-- Witness for C4: in the concrete all-success environment the search
provider returns 2 results and the fan-out receives both. -/
theorem search_truncation_first_seven_witness :
    CallEvent.scrapeSearchResultsCall
        (List.take 7 [{ url := "https://a.example", title := "A" },
                      ({ url := "https://b.example", title := "B" } : SearchResult)])
        "Widget X"
      ∈ (handler envA { url := some "https://example.com/prod1" }).2
    ∧ (List.take 7 [{ url := "https://a.example", title := "A" },
                    ({ url := "https://b.example", title := "B" } : SearchResult)]).length
        = min 7 (List.length [{ url := "https://a.example", title := "A" },
                              ({ url := "https://b.example", title := "B" } : SearchResult)])
    ∧ List.take 7 [{ url := "https://a.example", title := "A" },
                   ({ url := "https://b.example", title := "B" } : SearchResult)]
        ++ List.drop 7 [{ url := "https://a.example", title := "A" },
                        ({ url := "https://b.example", title := "B" } : SearchResult)]
        = [{ url := "https://a.example", title := "A" },
           ({ url := "https://b.example", title := "B" } : SearchResult)]
    ∧ (List.length [{ url := "https://a.example", title := "A" },
                    ({ url := "https://b.example", title := "B" } : SearchResult)] ≤ 7 →
        List.take 7 [{ url := "https://a.example", title := "A" },
                     ({ url := "https://b.example", title := "B" } : SearchResult)]
          = [{ url := "https://a.example", title := "A" },
             ({ url := "https://b.example", title := "B" } : SearchResult)]) :=
  search_truncation_first_seven envA "https://example.com/prod1"
    { url := "https://example.com/prod1", content := "Widget X details" }
    "Widget X details" "Widget X"
    { searchResults := [{ url := "https://a.example", title := "A" },
                        { url := "https://b.example", title := "B" }] }
    rfl rfl rfl rfl rfl rfl

/-- C7: the synthesis context is the summarization results filtered to
the values that are non-empty strings, concatenated with a blank-line
separator in the original scrape order of their source contents: when the
summary of content `c` is the value `g c`, the prompt handed to synthesis
is the template over the joined filtered `batch.contents.map g` — the
summaries in content order. -/
theorem synthesis_context_join (env : Env) (u : String) (page : ScrapedPage)
    (cleaned productName : String) (resp : SearchResponse) (batch : ScrapedBatch)
    (img : Option String) (g : SourceDoc → JsValue)
    (hu : u.isEmpty = false)
    (h1 : env.scrapeUrl u = .ok (some page))
    (h2 : page.content.isEmpty = false)
    (h3 : env.cleanContent page.content = .ok cleaned)
    (h4 : env.getProductName cleaned = .ok productName)
    (h5 : env.searchGoogle productName = .ok resp)
    (h6 : env.scrapeSearchResults (resp.searchResults.take 7) productName = .ok batch)
    (h7 : env.selectBestImageWithVision batch.images productName = .ok img)
    (hsum : ∀ c ∈ batch.contents, env.summarizeContent c.content = .ok (g c)) :
    CallEvent.generateObjectCall
        (promptTemplate productName
          (String.intercalate "\n\n" (filteredSummaries (batch.contents.map g))))
        ∈ (handler env { url := some u }).2
    ∧ combinedDetails (batch.contents.map g)
        = String.intercalate "\n\n" (filteredSummaries (batch.contents.map g))
    ∧ filteredSummaries (batch.contents.map g)
        = ((batch.contents.map g).filter isNonEmptyString).map jsValueToString := by
  have hall : promiseAll (batch.contents.map fun c => env.summarizeContent c.content)
      = .ok (batch.contents.map g) :=
    promiseAll_map_ok batch.contents _ g hsum
  refine ⟨?_, combinedDetails_eq_filteredSummaries _, filteredSummaries_eq_filter_map _⟩
  have hmem : CallEvent.generateObjectCall
      (promptTemplate productName (combinedDetails (batch.contents.map g)))
      ∈ (handler env { url := some u }).2 := by
    simp only [handler, urlFalsy, hu, Bool.false_eq_true, if_false, Option.getD_some,
      preStage, h1, h2, h3, h4, h5, h6, h7, hall]
    split <;> simp
  rw [combinedDetails_eq_filteredSummaries] at hmem
  exact hmem

/-- Witness for C7 in the concrete all-success environment, whose single
summary is the non-empty string "summary one". -/
theorem synthesis_context_join_witness :
    CallEvent.generateObjectCall
        (promptTemplate "Widget X"
          (String.intercalate "\n\n"
            (filteredSummaries
              (List.map (fun _ => JsValue.str "summary one")
                [({ url := "https://a.example", content := "alpha facts" } : SourceDoc)]))))
        ∈ (handler envA { url := some "https://example.com/prod1" }).2
    ∧ combinedDetails
          (List.map (fun _ => JsValue.str "summary one")
            [({ url := "https://a.example", content := "alpha facts" } : SourceDoc)])
        = String.intercalate "\n\n"
            (filteredSummaries
              (List.map (fun _ => JsValue.str "summary one")
                [({ url := "https://a.example", content := "alpha facts" } : SourceDoc)]))
    ∧ filteredSummaries
          (List.map (fun _ => JsValue.str "summary one")
            [({ url := "https://a.example", content := "alpha facts" } : SourceDoc)])
        = (((List.map (fun _ => JsValue.str "summary one")
              [({ url := "https://a.example", content := "alpha facts" } : SourceDoc)]).filter
            isNonEmptyString).map jsValueToString) :=
  synthesis_context_join envA "https://example.com/prod1"
    { url := "https://example.com/prod1", content := "Widget X details" }
    "Widget X details" "Widget X"
    { searchResults := [{ url := "https://a.example", title := "A" },
                        { url := "https://b.example", title := "B" }] }
    { contents := [{ url := "https://a.example", content := "alpha facts" }],
      images := ["img1"] }
    (some "img1") (fun _ => JsValue.str "summary one")
    rfl rfl rfl rfl rfl rfl rfl rfl (fun _ _ => rfl)

/-- A per-result scraper that always fails yields an empty batch from the
spec-modelled fan-out. -/
theorem scrapeSearchResultsSpec_all_fail (scrape : SearchResult → Option ScrapeOutcome)
    (rs : List SearchResult) (h : ∀ r ∈ rs, scrape r = none) :
    scrapeSearchResultsSpec scrape rs = { contents := [], images := [] } := by
  unfold scrapeSearchResultsSpec
  congr 1
  · rw [List.filterMap_eq_nil_iff]
    intro r hr
    rw [h r hr]
    rfl
  · induction rs with
    | nil => rfl
    | cons r rs ih =>
      have hr := h r (List.mem_cons_self r rs)
      have ih' := ih fun x hx => h x (List.mem_cons_of_mem r hx)
      simp only [List.map_cons, hr, List.flatten] at *
      simpa using ih'

/-- C6 (with the fan-out collaborator modelled from the spec): when every
retained search result fails to scrape, `contents` and `images` are both
empty, image selection and synthesis are still invoked with empty inputs,
and the request succeeds exactly when synthesis succeeds. -/
theorem all_scrapes_fail_still_synthesizes (env : Env)
    (scrape : SearchResult → Option ScrapeOutcome) (u : String) (page : ScrapedPage)
    (cleaned productName : String) (resp : SearchResponse) (img : Option String)
    (hu : u.isEmpty = false)
    (henv : env.scrapeSearchResults
      = fun rs _ => .ok (scrapeSearchResultsSpec scrape rs))
    (hfail : ∀ r ∈ resp.searchResults.take 7, scrape r = none)
    (h1 : env.scrapeUrl u = .ok (some page))
    (h2 : page.content.isEmpty = false)
    (h3 : env.cleanContent page.content = .ok cleaned)
    (h4 : env.getProductName cleaned = .ok productName)
    (h5 : env.searchGoogle productName = .ok resp)
    (h7 : env.selectBestImageWithVision [] productName = .ok img) :
    scrapeSearchResultsSpec scrape (resp.searchResults.take 7)
        = { contents := [], images := [] }
    ∧ CallEvent.selectBestImageCall [] productName ∈ (handler env { url := some u }).2
    ∧ CallEvent.generateObjectCall (promptTemplate productName "")
        ∈ (handler env { url := some u }).2
    ∧ (∀ obj, env.generateObject (promptTemplate productName "") = .ok obj →
        (handler env { url := some u }).1 = .ok { obj with image := img })
    ∧ (∀ e, env.generateObject (promptTemplate productName "") = .error e →
        (handler env { url := some u }).1
          = .serverError genericErrorMessage (errorDetails e)) := by
  have hbatch := scrapeSearchResultsSpec_all_fail scrape (resp.searchResults.take 7) hfail
  have h6 : env.scrapeSearchResults (resp.searchResults.take 7) productName
      = .ok { contents := [], images := [] } := by
    rw [henv]
    simp [hbatch]
  have hnil : ("\n\n".intercalate ([] : List String)) = "" := rfl
  refine ⟨hbatch, ?_, ?_, ?_, ?_⟩
  · simp only [handler, urlFalsy, hu, Bool.false_eq_true, if_false, Option.getD_some,
      preStage, h1, h2, h3, h4, h5, h6, h7, List.map_nil, promiseAll]
    split <;> simp
  · simp only [handler, urlFalsy, hu, Bool.false_eq_true, if_false, Option.getD_some,
      preStage, h1, h2, h3, h4, h5, h6, h7, List.map_nil, promiseAll, combinedDetails,
      List.filter_nil, hnil]
    split <;> simp
  · intro obj h9
    simp [handler, urlFalsy, hu, preStage, h1, h2, h3, h4, h5, h6, h7, combinedDetails,
      promiseAll, hnil, h9]
  · intro e h9
    simp [handler, urlFalsy, hu, preStage, h1, h2, h3, h4, h5, h6, h7, combinedDetails,
      promiseAll, hnil, h9]

/-- Witness for C6 at the concrete environment whose per-result scraper
always fails: the request still succeeds with the synthesized record. -/
theorem all_scrapes_fail_still_synthesizes_witness :
    (handler envC6 { url := some "https://example.com/prod1" }).1
      = .ok { objA with image := some "img1" } :=
  ((all_scrapes_fail_still_synthesizes envC6 (fun _ => none) "https://example.com/prod1"
      { url := "https://example.com/prod1", content := "Widget X details" }
      "Widget X details" "Widget X"
      { searchResults := [{ url := "https://a.example", title := "A" },
                          { url := "https://b.example", title := "B" }] }
      (some "img1") rfl rfl (fun _ _ => rfl) rfl rfl rfl rfl rfl rfl).2.2.2.1) objA rfl

/-- Inversion of a successful handler run: a 200 response comes from a
selector result `img`, settled summaries `vs` and a synthesized object
`obj`, and the returned record is exactly `obj` with its image field
overwritten by `img`. -/
theorem handler_ok_inv (env : Env) (body : RequestBody) (rec : ProductObject)
    (t : List CallEvent) (h : handler env body = (.ok rec, t)) :
    ∃ (productName : String) (batch : ScrapedBatch) (vs : List JsValue)
      (img : Option String) (obj : ProductObject),
      env.selectBestImageWithVision batch.images productName = .ok img
      ∧ promiseAll (batch.contents.map fun c => env.summarizeContent c.content) = .ok vs
      ∧ env.generateObject (promptTemplate productName (combinedDetails vs)) = .ok obj
      ∧ rec = { obj with image := img } := by
  unfold handler at h
  by_cases hf : urlFalsy body.url
  · rw [if_pos hf] at h
    exact absurd h (by simp)
  · rw [if_neg hf] at h
    dsimp only at h
    rcases hp : preStage env (body.url.getD "") with ⟨res, t0⟩
    rw [hp] at h
    cases res with
    | error e => exact absurd h (by simp)
    | ok pb =>
      rcases pb with ⟨pn, batch⟩
      dsimp only at h
      cases hsel : env.selectBestImageWithVision batch.images pn with
      | error e =>
        rw [hsel] at h
        exact absurd h (by simp)
      | ok img =>
        rw [hsel] at h
        dsimp only at h
        cases hsum : promiseAll (batch.contents.map fun c => env.summarizeContent c.content) with
        | error e =>
          rw [hsum] at h
          exact absurd h (by simp)
        | ok vs =>
          rw [hsum] at h
          dsimp only at h
          cases hgen : env.generateObject (promptTemplate pn (combinedDetails vs)) with
          | error e =>
            rw [hgen] at h
            exact absurd h (by simp)
          | ok obj =>
            rw [hgen] at h
            simp only [Prod.mk.injEq, HandlerResult.ok.injEq] at h
            exact ⟨pn, batch, vs, img, obj, hsel, hsum, hgen, h.1.symm⟩

/-- C9: every successful response's `specifications` field is the
synthesizer's array of label/value pairs, passed through assembly
unchanged — in particular an empty array stays an empty array rather than
being omitted. -/
theorem specifications_always_array (env : Env) (body : RequestBody)
    (rec : ProductObject) (t : List CallEvent)
    (h : handler env body = (.ok rec, t)) :
    ∃ prompt obj, env.generateObject prompt = .ok obj
      ∧ rec.specifications = obj.specifications := by
  obtain ⟨pn, batch, vs, img, obj, _, _, hgen, hrec⟩ :=
    handler_ok_inv env body rec t h
  exact ⟨_, obj, hgen, by rw [hrec]⟩

/-- Witness for C9 at a concrete environment whose synthesizer returns an
empty specifications array: the response's field is the empty array. -/
theorem specifications_always_array_witness :
    ∃ prompt obj, envC9.generateObject prompt = .ok obj
      ∧ ({ objEmptySpecs with image := some "img1" } : ProductObject).specifications
          = obj.specifications :=
  specifications_always_array envC9 bodyA { objEmptySpecs with image := some "img1" } _ rfl

/-- C10: for every successful response, the `image` field equals exactly
the ImageSelector's result, assembly modifies no field other than
`image`, and whatever image the synthesizer produced is unconditionally
overwritten. -/
theorem image_from_selector_only (env : Env) (body : RequestBody)
    (rec : ProductObject) (t : List CallEvent)
    (h : handler env body = (.ok rec, t)) :
    ∃ (productName : String) (batch : ScrapedBatch) (prompt : String)
      (obj : ProductObject) (img : Option String),
      env.selectBestImageWithVision batch.images productName = .ok img
      ∧ env.generateObject prompt = .ok obj
      ∧ rec = { obj with image := img }
      ∧ rec.image = img
      ∧ sameTextualFields rec obj := by
  obtain ⟨pn, batch, vs, img, obj, hsel, _, hgen, hrec⟩ :=
    handler_ok_inv env body rec t h
  refine ⟨pn, batch, _, obj, img, hsel, hgen, hrec, by rw [hrec], ?_⟩
  rw [hrec]
  exact ⟨rfl, rfl, rfl, rfl, rfl, rfl⟩

/-- Witness for C10 at the concrete all-success environment, where the
synthesizer's own image field is `none` but the response carries the
selector's image. -/
theorem image_from_selector_only_witness :
    ∃ (productName : String) (batch : ScrapedBatch) (prompt : String)
      (obj : ProductObject) (img : Option String),
      envA.selectBestImageWithVision batch.images productName = .ok img
      ∧ envA.generateObject prompt = .ok obj
      ∧ ({ objA with image := some "img1" } : ProductObject) = { obj with image := img }
      ∧ ({ objA with image := some "img1" } : ProductObject).image = img
      ∧ sameTextualFields { objA with image := some "img1" } obj :=
  image_from_selector_only envA bodyA { objA with image := some "img1" } _ rfl

/-- C5: the chosen image never influences the textual fields — for two
runs whose collaborator responses differ only in the ImageSelector, and
which both succeed, the two responses have identical textual fields and
the synthesis calls (prompts included) in the two traces are identical;
the image is attached only after synthesis. -/
theorem image_noninterference (env : Env)
    (f2 : List String → String → Except JsError (Option String))
    (body : RequestBody) (r1 r2 : ProductObject) (t1 t2 : List CallEvent)
    (h1 : handler env body = (.ok r1, t1))
    (h2 : handler { env with selectBestImageWithVision := f2 } body = (.ok r2, t2)) :
    sameTextualFields r1 r2
    ∧ t1.filter isGenerateObjectCall = t2.filter isGenerateObjectCall := by
  unfold handler at h1 h2
  by_cases hf : urlFalsy body.url
  · rw [if_pos hf] at h1
    exact absurd h1 (by simp)
  · rw [if_neg hf] at h1 h2
    dsimp only at h1 h2
    have hpre : preStage { env with selectBestImageWithVision := f2 } (body.url.getD "")
        = preStage env (body.url.getD "") := rfl
    rw [hpre] at h2
    rcases hp : preStage env (body.url.getD "") with ⟨res, t0⟩
    rw [hp] at h1 h2
    cases res with
    | error e => exact absurd h1 (by simp)
    | ok pb =>
      rcases pb with ⟨pn, batch⟩
      dsimp only at h1 h2
      cases hs1 : env.selectBestImageWithVision batch.images pn with
      | error e =>
        rw [hs1] at h1
        exact absurd h1 (by simp)
      | ok i1 =>
        rw [hs1] at h1
        dsimp only at h1
        cases hs2 : f2 batch.images pn with
        | error e =>
          rw [hs2] at h2
          exact absurd h2 (by simp)
        | ok i2 =>
          rw [hs2] at h2
          dsimp only at h2
          cases hsum : promiseAll (batch.contents.map fun c => env.summarizeContent c.content) with
          | error e =>
            rw [hsum] at h1
            exact absurd h1 (by simp)
          | ok vs =>
            rw [hsum] at h1 h2
            dsimp only at h1 h2
            cases hgen : env.generateObject (promptTemplate pn (combinedDetails vs)) with
            | error e =>
              rw [hgen] at h1
              exact absurd h1 (by simp)
            | ok obj =>
              rw [hgen] at h1 h2
              simp only [Prod.mk.injEq, HandlerResult.ok.injEq] at h1 h2
              obtain ⟨hr1, ht1⟩ := h1
              obtain ⟨hr2, ht2⟩ := h2
              constructor
              · rw [← hr1, ← hr2]
                exact ⟨rfl, rfl, rfl, rfl, rfl, rfl⟩
              · rw [← ht1, ← ht2]

/-- Witness for C5: two concrete runs differing only in the selector
(returning "img1" and "img2" respectively) succeed with identical
textual fields and identical synthesis calls. -/
theorem image_noninterference_witness :
    sameTextualFields { objA with image := some "img1" } { objA with image := some "img2" }
    ∧ (handler envA bodyA).2.filter isGenerateObjectCall
        = (handler { envA with selectBestImageWithVision := fun _ _ => .ok (some "img2") }
            bodyA).2.filter isGenerateObjectCall :=
  image_noninterference envA (fun _ _ => .ok (some "img2")) bodyA
    { objA with image := some "img1" } { objA with image := some "img2" } _ _ rfl rfl

end ProductScraper
